import Mathlib

/-!
Shallow embedding of the mem0 REST server facade (src/server/main.py).

The server is a thin HTTP facade over an external memory-management
client.  Each endpoint handler is embedded as a pure Lean function that
takes the process state (the single shared client instance) and the
parsed request, and returns the HTTP-level outcome together with the
list of backend client calls the handler performed, in order.  The
backend client itself is opaque: it is a function from a recorded call
(method name plus keyword arguments) to either a result value or a
raised exception, modelled with `Except String`.

Python truthiness of optional string identifiers (`any([...])` on
`Optional[str]` values, where both `None` and the empty string are
falsy) is modelled explicitly by `truthy`.
-/

namespace Mem0Server

/-- Wire-level message shape (pydantic model `Message`): a role and a
content string. -/
structure Message where
  role : String
  content : String
deriving DecidableEq

/-- Values passed as keyword arguments to the backend client: plain
strings (identifiers), opaque string-keyed mappings (metadata, filters,
update payloads, modelled as association lists since the facade never
inspects them), or a dumped message list. -/
inductive Val where
  | str (s : String)
  | dict (d : List (String × String))
  | messageList (ms : List Message)
deriving DecidableEq

/-- A single invocation of a backend client method: the method name and
the arguments forwarded to it, in the order the handler builds them. -/
structure ClientCall where
  method : String
  args : List (String × Val)
deriving DecidableEq

/-- The opaque backend memory client (`Memory` in the source).  A call
either returns a result of type `ρ` or raises an exception, carried as
its string representation. -/
structure Client (ρ : Type) where
  call : ClientCall → Except String ρ

/-- Process-wide server state: the single shared mutable reference
`MEMORY_INSTANCE` to the active backend client. -/
structure ServerState (ρ : Type) where
  memory_instance : Client ρ

/-- Request body of `POST /memories` (pydantic model `MemoryCreate`),
fields in declaration order. -/
structure MemoryCreate where
  messages : List Message
  user_id : Option String
  agent_id : Option String
  run_id : Option String
  metadata : Option (List (String × String))
deriving DecidableEq

/-- Request body of `POST /search` (pydantic model `SearchRequest`),
fields in declaration order. -/
structure SearchRequest where
  query : String
  user_id : Option String
  run_id : Option String
  agent_id : Option String
  filters : Option (List (String × String))
deriving DecidableEq

/-- HTTP-level outcome of a handler: a JSON body produced from a client
result, a fixed confirmation body of the shape message-to-text, a
redirect, or an `HTTPException` with status code and detail string. -/
inductive HResult (ρ : Type) where
  | ok (body : ρ)
  | message (text : String)
  | redirect (url : String)
  | httpError (status : Nat) (detail : String)
deriving DecidableEq

/-- Python truthiness of an `Optional[str]` value: `None` and the empty
string are falsy, every other string is truthy. -/
def truthy : Option String → Bool
  | none => false
  | some s => !(s == "")

/-- The detail string of the 400 validation error raised when no
identifier is supplied. -/
def identifier_required_detail : String := "At least one identifier is required."

/-- Keyword-argument entry for an optional string field: present with
its name when the field is not `None`, omitted otherwise. -/
def optStr (k : String) : Option String → List (String × Val)
  | some v => [(k, Val.str v)]
  | none => []

/-- Keyword-argument entry for an optional mapping field: present with
its name when the field is not `None`, omitted otherwise. -/
def optDict (k : String) : Option (List (String × String)) → List (String × Val)
  | some v => [(k, Val.dict v)]
  | none => []

/-- The keyword arguments `add_memory` forwards besides `messages`: the
non-`None` entries of the model dump, in field order (`user_id`,
`agent_id`, `run_id`, `metadata`), the key `messages` excluded. -/
def MemoryCreate.addParams (m : MemoryCreate) : List (String × Val) :=
  optStr "user_id" m.user_id ++ optStr "agent_id" m.agent_id ++
    optStr "run_id" m.run_id ++ optDict "metadata" m.metadata

/-- The keyword arguments `search_memories` forwards besides `query`:
the non-`None` entries of the model dump, in field order (`user_id`,
`run_id`, `agent_id`, `filters`), the key `query` excluded. -/
def SearchRequest.searchParams (r : SearchRequest) : List (String × Val) :=
  optStr "user_id" r.user_id ++ optStr "run_id" r.run_id ++
    optStr "agent_id" r.agent_id ++ optDict "filters" r.filters

/-- Handler of `POST /memories` (`add_memory`): raises a 400 with the
identifier-required detail when `any([user_id, agent_id, run_id])` is
falsy, before any backend call; otherwise calls the backend `add` with
the dumped messages and the non-`None` keyword arguments, returning the
backend result as the JSON body, or a 500 carrying the string
representation of a raised exception. -/
def add_memory {ρ : Type} (st : ServerState ρ) (memory_create : MemoryCreate) :
    HResult ρ × List ClientCall :=
  if !(truthy memory_create.user_id || truthy memory_create.agent_id ||
      truthy memory_create.run_id) then
    (HResult.httpError 400 identifier_required_detail, [])
  else
    let c : ClientCall :=
      ⟨"add", ("messages", Val.messageList memory_create.messages) :: memory_create.addParams⟩
    match st.memory_instance.call c with
    | Except.ok v => (HResult.ok v, [c])
    | Except.error e => (HResult.httpError 500 e, [c])

/-- Handler of `GET /memories` (`get_all_memories`): raises a 400 with
the identifier-required detail when `any([user_id, run_id, agent_id])`
is falsy, before any backend call; otherwise calls the backend
`get_all` with the non-`None` parameters (local-variable order:
`user_id`, `run_id`, `agent_id`). -/
def get_all_memories {ρ : Type} (st : ServerState ρ)
    (user_id run_id agent_id : Option String) : HResult ρ × List ClientCall :=
  if !(truthy user_id || truthy run_id || truthy agent_id) then
    (HResult.httpError 400 identifier_required_detail, [])
  else
    let c : ClientCall :=
      ⟨"get_all", optStr "user_id" user_id ++ optStr "run_id" run_id ++
        optStr "agent_id" agent_id⟩
    match st.memory_instance.call c with
    | Except.ok v => (HResult.ok v, [c])
    | Except.error e => (HResult.httpError 500 e, [c])

/-- Handler of `GET /memories/(memory_id)` (`get_memory`): calls the
backend `get` with the path parameter, no precondition. -/
def get_memory {ρ : Type} (st : ServerState ρ) (memory_id : String) :
    HResult ρ × List ClientCall :=
  let c : ClientCall := ⟨"get", [("memory_id", Val.str memory_id)]⟩
  match st.memory_instance.call c with
  | Except.ok v => (HResult.ok v, [c])
  | Except.error e => (HResult.httpError 500 e, [c])

/-- Handler of `POST /search` (`search_memories`): calls the backend
`search` with the query and the non-`None` keyword arguments, with no
identifier precondition. -/
def search_memories {ρ : Type} (st : ServerState ρ) (search_req : SearchRequest) :
    HResult ρ × List ClientCall :=
  let c : ClientCall :=
    ⟨"search", ("query", Val.str search_req.query) :: search_req.searchParams⟩
  match st.memory_instance.call c with
  | Except.ok v => (HResult.ok v, [c])
  | Except.error e => (HResult.httpError 500 e, [c])

/-- Handler of `PUT /memories/(memory_id)` (`update_memory`): calls the
backend `update` with the path parameter and the arbitrary update
mapping. -/
def update_memory {ρ : Type} (st : ServerState ρ) (memory_id : String)
    (updated_memory : List (String × String)) : HResult ρ × List ClientCall :=
  let c : ClientCall :=
    ⟨"update", [("memory_id", Val.str memory_id), ("data", Val.dict updated_memory)]⟩
  match st.memory_instance.call c with
  | Except.ok v => (HResult.ok v, [c])
  | Except.error e => (HResult.httpError 500 e, [c])

/-- Handler of `GET /memories/(memory_id)/history` (`memory_history`):
calls the backend `history` with the path parameter. -/
def memory_history {ρ : Type} (st : ServerState ρ) (memory_id : String) :
    HResult ρ × List ClientCall :=
  let c : ClientCall := ⟨"history", [("memory_id", Val.str memory_id)]⟩
  match st.memory_instance.call c with
  | Except.ok v => (HResult.ok v, [c])
  | Except.error e => (HResult.httpError 500 e, [c])

/-- Handler of `DELETE /memories/(memory_id)` (`delete_memory`): calls
the backend `delete` with the path parameter; on success the backend
return value is discarded and a fixed confirmation body is returned. -/
def delete_memory {ρ : Type} (st : ServerState ρ) (memory_id : String) :
    HResult ρ × List ClientCall :=
  let c : ClientCall := ⟨"delete", [("memory_id", Val.str memory_id)]⟩
  match st.memory_instance.call c with
  | Except.ok _ => (HResult.message "Memory deleted successfully", [c])
  | Except.error e => (HResult.httpError 500 e, [c])

/-- Handler of `DELETE /memories` (`delete_all_memories`): raises a 400
with the identifier-required detail when `any([user_id, run_id,
agent_id])` is falsy, before any backend call; otherwise calls the
backend `delete_all` with the non-`None` parameters and, on success,
discards its return value and returns a fixed confirmation body. -/
def delete_all_memories {ρ : Type} (st : ServerState ρ)
    (user_id run_id agent_id : Option String) : HResult ρ × List ClientCall :=
  if !(truthy user_id || truthy run_id || truthy agent_id) then
    (HResult.httpError 400 identifier_required_detail, [])
  else
    let c : ClientCall :=
      ⟨"delete_all", optStr "user_id" user_id ++ optStr "run_id" run_id ++
        optStr "agent_id" agent_id⟩
    match st.memory_instance.call c with
    | Except.ok _ => (HResult.message "All relevant memories deleted", [c])
    | Except.error e => (HResult.httpError 500 e, [c])

/-- Handler of `POST /reset` (`reset_memory`): calls the backend
`reset` with no arguments; on success the backend return value is
discarded and a fixed confirmation body is returned. -/
def reset_memory {ρ : Type} (st : ServerState ρ) : HResult ρ × List ClientCall :=
  let c : ClientCall := ⟨"reset", []⟩
  match st.memory_instance.call c with
  | Except.ok _ => (HResult.message "All memories reset", [c])
  | Except.error e => (HResult.httpError 500 e, [c])

/-- Handler of `POST /configure` (`set_config`): evaluates
`Memory.from_config(config)` (the constructor is passed in as
`from_config`, since the library is external) and, on success, assigns
the fresh client to the global `MEMORY_INSTANCE` and returns the fixed
confirmation body.  The handler has no try/except: a constructor
exception propagates out unhandled, modelled by `Except.error` in the
first component, and the assignment to the global never happens, so the
returned state is the input state. -/
def set_config {ρ : Type} (from_config : List (String × String) → Except String (Client ρ))
    (st : ServerState ρ) (config : List (String × String)) :
    Except String (HResult ρ) × ServerState ρ :=
  match from_config config with
  | Except.ok m => (Except.ok (HResult.message "Configuration set successfully"), ⟨m⟩)
  | Except.error e => (Except.error e, st)

/-- Handler of `GET /` (`home`): returns a redirect to `/docs`. -/
def home {ρ : Type} : HResult ρ := HResult.redirect "/docs"

/-- C1: for every request to POST /memories, GET /memories, or DELETE
/memories in which user_id, agent_id, and run_id are all absent, the
handler returns a 400 error whose detail is the identifier-required
message, and the backend client is never invoked on that request (the
call trace is empty). -/
theorem C1_missing_identifiers_rejected_before_backend {ρ : Type}
    (st : ServerState ρ) (m : MemoryCreate)
    (hu : m.user_id = none) (ha : m.agent_id = none) (hr : m.run_id = none) :
    add_memory st m = (HResult.httpError 400 identifier_required_detail, []) ∧
    get_all_memories st none none none =
      (HResult.httpError 400 identifier_required_detail, []) ∧
    delete_all_memories st none none none =
      (HResult.httpError 400 identifier_required_detail, []) := by
  refine ⟨?_, rfl, rfl⟩
  simp [add_memory, truthy, hu, ha, hr]

/-- Witness for C1 at a concrete state and request. -/
theorem C1_missing_identifiers_rejected_before_backend_witness :
    add_memory (ρ := String) ⟨⟨fun _ => Except.ok "r"⟩⟩ ⟨[⟨"user", "hi"⟩], none, none, none, none⟩ =
      (HResult.httpError 400 identifier_required_detail, []) ∧
    get_all_memories (ρ := String) ⟨⟨fun _ => Except.ok "r"⟩⟩ none none none =
      (HResult.httpError 400 identifier_required_detail, []) ∧
    delete_all_memories (ρ := String) ⟨⟨fun _ => Except.ok "r"⟩⟩ none none none =
      (HResult.httpError 400 identifier_required_detail, []) :=
  C1_missing_identifiers_rejected_before_backend
    ⟨⟨fun _ => Except.ok "r"⟩⟩ ⟨[⟨"user", "hi"⟩], none, none, none, none⟩ rfl rfl rfl

/-- C9: the identifier-presence check on POST /memories, GET /memories,
and DELETE /memories tests Python truthiness rather than presence, so a
request in which every supplied identifier is the empty string (each of
the three is either absent or the empty string, with at least one
present) is still rejected with the 400 identifier-required error. -/
theorem C9_empty_string_identifiers_rejected {ρ : Type}
    (st : ServerState ρ) (m : MemoryCreate) (u r a : Option String)
    (hu : m.user_id = none ∨ m.user_id = some "")
    (ha : m.agent_id = none ∨ m.agent_id = some "")
    (hr : m.run_id = none ∨ m.run_id = some "")
    (hqu : u = none ∨ u = some "")
    (hqr : r = none ∨ r = some "")
    (hqa : a = none ∨ a = some "") :
    add_memory st m = (HResult.httpError 400 identifier_required_detail, []) ∧
    get_all_memories st u r a =
      (HResult.httpError 400 identifier_required_detail, []) ∧
    delete_all_memories st u r a =
      (HResult.httpError 400 identifier_required_detail, []) := by
  have tu : truthy m.user_id = false := by rcases hu with h | h <;> simp [h, truthy]
  have ta : truthy m.agent_id = false := by rcases ha with h | h <;> simp [h, truthy]
  have tr : truthy m.run_id = false := by rcases hr with h | h <;> simp [h, truthy]
  have tqu : truthy u = false := by rcases hqu with h | h <;> simp [h, truthy]
  have tqr : truthy r = false := by rcases hqr with h | h <;> simp [h, truthy]
  have tqa : truthy a = false := by rcases hqa with h | h <;> simp [h, truthy]
  refine ⟨?_, ?_, ?_⟩
  · simp [add_memory, tu, ta, tr]
  · simp [get_all_memories, tqu, tqr, tqa]
  · simp [delete_all_memories, tqu, tqr, tqa]

/-- Witness for C9: identifiers present but equal to the empty string
are still rejected. -/
theorem C9_empty_string_identifiers_rejected_witness :
    add_memory (ρ := String) ⟨⟨fun _ => Except.ok "r"⟩⟩
        ⟨[⟨"user", "hi"⟩], some "", none, none, none⟩ =
      (HResult.httpError 400 identifier_required_detail, []) ∧
    get_all_memories (ρ := String) ⟨⟨fun _ => Except.ok "r"⟩⟩ (some "") none none =
      (HResult.httpError 400 identifier_required_detail, []) ∧
    delete_all_memories (ρ := String) ⟨⟨fun _ => Except.ok "r"⟩⟩ (some "") none none =
      (HResult.httpError 400 identifier_required_detail, []) :=
  C9_empty_string_identifiers_rejected ⟨⟨fun _ => Except.ok "r"⟩⟩
    ⟨[⟨"user", "hi"⟩], some "", none, none, none⟩ (some "") none none
    (Or.inr rfl) (Or.inl rfl) (Or.inl rfl) (Or.inr rfl) (Or.inl rfl) (Or.inl rfl)

/-- C8: every GET / request returns a redirect to /docs, never a JSON
body built from a backend result. -/
theorem C8_home_redirects_to_docs {ρ : Type} :
    (home : HResult ρ) = HResult.redirect "/docs" ∧
    ∀ b : ρ, (home : HResult ρ) ≠ HResult.ok b := by
  exact ⟨rfl, fun b h => by cases h⟩

/-- C2: every POST /search request is forwarded to the backend search
operation with the query plus exactly the non-null optional fields, the
null-valued ones omitted; no identifier precondition is enforced, so
even a request with no identifiers produces exactly one backend call
and is never answered with a 400 validation error; in particular a
request with only a query and an agent_id forwards exactly those two
arguments. -/
theorem C2_search_forwards_non_null_fields {ρ : Type}
    (st : ServerState ρ) (r : SearchRequest) :
    (search_memories st r).2 =
      [⟨"search", ("query", Val.str r.query) :: r.searchParams⟩] ∧
    (∀ q a : String, (search_memories st ⟨q, none, none, some a, none⟩).2 =
      [⟨"search", [("query", Val.str q), ("agent_id", Val.str a)]⟩]) ∧
    ∀ d : String, (search_memories st r).1 ≠ HResult.httpError 400 d := by
  refine ⟨?_, ?_, ?_⟩
  · cases hx : st.memory_instance.call
        ⟨"search", ("query", Val.str r.query) :: r.searchParams⟩ <;>
      simp [search_memories, hx]
  · intro q a
    cases hx : st.memory_instance.call
        ⟨"search", [("query", Val.str q), ("agent_id", Val.str a)]⟩ <;>
      simp [search_memories, SearchRequest.searchParams, optStr, optDict, hx]
  · intro d
    cases hx : st.memory_instance.call
        ⟨"search", ("query", Val.str r.query) :: r.searchParams⟩ <;>
      simp [search_memories, hx]

/-- C4: a POST /memories request with one user message and user_id u1
(all other optional fields null) calls the backend add operation with
exactly the dumped message list and user_id, no other keyword
arguments, and returns the backend add result as the response body. -/
theorem C4_add_forwards_exact_arguments {ρ : Type}
    (st : ServerState ρ) (v : ρ)
    (h : st.memory_instance.call
        ⟨"add", [("messages", Val.messageList [⟨"user", "hi"⟩]),
          ("user_id", Val.str "u1")]⟩ = Except.ok v) :
    add_memory st ⟨[⟨"user", "hi"⟩], some "u1", none, none, none⟩ =
      (HResult.ok v,
        [⟨"add", [("messages", Val.messageList [⟨"user", "hi"⟩]),
          ("user_id", Val.str "u1")]⟩]) := by
  unfold add_memory
  simp [truthy, MemoryCreate.addParams, optStr, optDict, h]

/-- Witness for C4 at a concrete backend client. -/
theorem C4_add_forwards_exact_arguments_witness :
    add_memory (ρ := String) ⟨⟨fun _ => Except.ok "added"⟩⟩
        ⟨[⟨"user", "hi"⟩], some "u1", none, none, none⟩ =
      (HResult.ok "added",
        [⟨"add", [("messages", Val.messageList [⟨"user", "hi"⟩]),
          ("user_id", Val.str "u1")]⟩]) :=
  C4_add_forwards_exact_arguments ⟨⟨fun _ => Except.ok "added"⟩⟩ "added" rfl

/-- C3: on every data-access endpoint, when the backend client call
raises an exception, the handler answers with a 500 error whose detail
is the string representation of that exception, after exactly one
backend call (no retry).  The identifier-requiring endpoints are
considered on requests that pass their identifier check. -/
theorem C3_backend_exception_maps_to_500 {ρ : Type}
    (st : ServerState ρ) (e : String)
    (hc : ∀ c : ClientCall, st.memory_instance.call c = Except.error e)
    (m : MemoryCreate)
    (hm : (truthy m.user_id || truthy m.agent_id || truthy m.run_id) = true)
    (u r a : Option String)
    (hq : (truthy u || truthy r || truthy a) = true)
    (memory_id : String) (payload : List (String × String)) (sr : SearchRequest) :
    add_memory st m = (HResult.httpError 500 e, (add_memory st m).2) ∧
      (add_memory st m).2.length = 1 ∧
    get_all_memories st u r a =
        (HResult.httpError 500 e, (get_all_memories st u r a).2) ∧
      (get_all_memories st u r a).2.length = 1 ∧
    get_memory st memory_id = (HResult.httpError 500 e, (get_memory st memory_id).2) ∧
      (get_memory st memory_id).2.length = 1 ∧
    search_memories st sr = (HResult.httpError 500 e, (search_memories st sr).2) ∧
      (search_memories st sr).2.length = 1 ∧
    update_memory st memory_id payload =
        (HResult.httpError 500 e, (update_memory st memory_id payload).2) ∧
      (update_memory st memory_id payload).2.length = 1 ∧
    memory_history st memory_id =
        (HResult.httpError 500 e, (memory_history st memory_id).2) ∧
      (memory_history st memory_id).2.length = 1 ∧
    delete_memory st memory_id =
        (HResult.httpError 500 e, (delete_memory st memory_id).2) ∧
      (delete_memory st memory_id).2.length = 1 ∧
    delete_all_memories st u r a =
        (HResult.httpError 500 e, (delete_all_memories st u r a).2) ∧
      (delete_all_memories st u r a).2.length = 1 ∧
    reset_memory st = (HResult.httpError 500 e, (reset_memory st).2) ∧
      (reset_memory st).2.length = 1 := by
  refine ⟨?_, ?_, ?_, ?_, ?_, ?_, ?_, ?_, ?_, ?_, ?_, ?_, ?_, ?_, ?_, ?_, ?_, ?_⟩ <;>
    simp [add_memory, get_all_memories, get_memory, search_memories, update_memory,
      memory_history, delete_memory, delete_all_memories, reset_memory, hm, hq, hc]

/-- Witness for C3 at a concrete always-raising backend client. -/
theorem C3_backend_exception_maps_to_500_witness :
    (add_memory (ρ := String) ⟨⟨fun _ => Except.error "boom"⟩⟩
        ⟨[⟨"user", "hi"⟩], some "u1", none, none, none⟩).1 =
      HResult.httpError 500 "boom" ∧
    (reset_memory (ρ := String) ⟨⟨fun _ => Except.error "boom"⟩⟩).1 =
      HResult.httpError 500 "boom" :=
  ⟨by
    have h := C3_backend_exception_maps_to_500 (ρ := String)
      ⟨⟨fun _ => Except.error "boom"⟩⟩ "boom" (fun _ => rfl)
      ⟨[⟨"user", "hi"⟩], some "u1", none, none, none⟩ (by decide)
      (some "u1") none none (by decide) "id1" [] ⟨"q", none, none, none, none⟩
    exact congrArg Prod.fst h.1,
   by
    have h := C3_backend_exception_maps_to_500 (ρ := String)
      ⟨⟨fun _ => Except.error "boom"⟩⟩ "boom" (fun _ => rfl)
      ⟨[⟨"user", "hi"⟩], some "u1", none, none, none⟩ (by decide)
      (some "u1") none none (by decide) "id1" [] ⟨"q", none, none, none, none⟩
    exact congrArg Prod.fst h.2.2.2.2.2.2.2.2.2.2.2.2.2.2.2.2.1⟩

/-- C5: when construction from the given configuration succeeds, POST
/configure replaces the process-wide client reference wholesale with
the freshly constructed client and returns the configuration-set
confirmation body; the new state is independent of the old state, so
the old client is discarded and every subsequent endpoint call is
served through the new client. -/
theorem C5_configure_replaces_client {ρ : Type}
    (from_config : List (String × String) → Except String (Client ρ))
    (st : ServerState ρ) (config : List (String × String)) (m : Client ρ)
    (h : from_config config = Except.ok m) :
    set_config from_config st config =
      (Except.ok (HResult.message "Configuration set successfully"), ⟨m⟩) ∧
    ∀ st2 : ServerState ρ,
      set_config from_config st2 config = set_config from_config st config := by
  constructor
  · simp [set_config, h]
  · intro st2
    simp [set_config, h]

/-- Witness for C5 with a concrete constructor and states. -/
theorem C5_configure_replaces_client_witness :
    set_config (ρ := String) (fun _ => Except.ok ⟨fun _ => Except.ok "fresh"⟩)
        ⟨⟨fun _ => Except.ok "old"⟩⟩ [] =
      (Except.ok (HResult.message "Configuration set successfully"),
        ⟨⟨fun _ => Except.ok "fresh"⟩⟩) :=
  (C5_configure_replaces_client (fun _ => Except.ok ⟨fun _ => Except.ok "fresh"⟩)
    ⟨⟨fun _ => Except.ok "old"⟩⟩ [] ⟨fun _ => Except.ok "fresh"⟩ rfl).1

/-- C6: POST /configure performs no exception-to-HTTP mapping: when
client construction raises, the exception propagates out of the handler
unhandled (the outcome is the propagated exception, never an HTTP error
response the way the data-access endpoints produce one). -/
theorem C6_configure_no_exception_mapping {ρ : Type}
    (from_config : List (String × String) → Except String (Client ρ))
    (st : ServerState ρ) (config : List (String × String)) (e : String)
    (h : from_config config = Except.error e) :
    (set_config from_config st config).1 = Except.error e ∧
    ∀ (status : Nat) (d : String),
      (set_config from_config st config).1 ≠
        Except.ok (HResult.httpError status d) := by
  constructor
  · simp [set_config, h]
  · intro status d
    simp [set_config, h]

/-- Witness for C6 with a concrete always-raising constructor. -/
theorem C6_configure_no_exception_mapping_witness :
    (set_config (ρ := String) (fun _ => Except.error "bad config")
        ⟨⟨fun _ => Except.ok "old"⟩⟩ []).1 = Except.error "bad config" :=
  (C6_configure_no_exception_mapping (fun _ => Except.error "bad config")
    ⟨⟨fun _ => Except.ok "old"⟩⟩ [] "bad config" rfl).1

/-- C10: POST /configure is atomic with respect to the shared client
reference under sequential execution: when client construction raises,
the global client reference is left unchanged, because the assignment
happens only after construction completes successfully. -/
theorem C10_configure_failure_leaves_state {ρ : Type}
    (from_config : List (String × String) → Except String (Client ρ))
    (st : ServerState ρ) (config : List (String × String)) (e : String)
    (h : from_config config = Except.error e) :
    (set_config from_config st config).2 = st := by
  simp [set_config, h]

/-- Witness for C10 with a concrete always-raising constructor. -/
theorem C10_configure_failure_leaves_state_witness :
    (set_config (ρ := String) (fun _ => Except.error "bad config")
        ⟨⟨fun _ => Except.ok "old"⟩⟩ []).2 = ⟨⟨fun _ => Except.ok "old"⟩⟩ :=
  C10_configure_failure_leaves_state (fun _ => Except.error "bad config")
    ⟨⟨fun _ => Except.ok "old"⟩⟩ [] "bad config" rfl

/-- C7: whenever the backend call does not raise, DELETE
/memories/(memory_id) answers with exactly the body saying the memory
was deleted successfully, DELETE /memories with exactly the body saying
all relevant memories were deleted, and POST /reset with exactly the
body saying all memories were reset; the backend return values v1, v2,
v3 are arbitrary and do not appear in the responses. -/
theorem C7_fixed_confirmation_bodies {ρ : Type}
    (st : ServerState ρ) (memory_id : String) (u r a : Option String)
    (hq : (truthy u || truthy r || truthy a) = true) (v1 v2 v3 : ρ)
    (h1 : st.memory_instance.call ⟨"delete", [("memory_id", Val.str memory_id)]⟩ =
      Except.ok v1)
    (h2 : st.memory_instance.call
        ⟨"delete_all", optStr "user_id" u ++ optStr "run_id" r ++ optStr "agent_id" a⟩ =
      Except.ok v2)
    (h3 : st.memory_instance.call ⟨"reset", []⟩ = Except.ok v3) :
    (delete_memory st memory_id).1 = HResult.message "Memory deleted successfully" ∧
    (delete_all_memories st u r a).1 = HResult.message "All relevant memories deleted" ∧
    (reset_memory st).1 = HResult.message "All memories reset" := by
  refine ⟨?_, ?_, ?_⟩
  · simp [delete_memory, h1]
  · simp only [List.append_assoc] at h2
    simp [delete_all_memories, hq, h2]
  · simp [reset_memory, h3]

/-- Witness for C7 at a concrete backend client whose return values
differ from every confirmation body. -/
theorem C7_fixed_confirmation_bodies_witness :
    (delete_memory (ρ := String) ⟨⟨fun _ => Except.ok "backend value"⟩⟩ "id1").1 =
      HResult.message "Memory deleted successfully" ∧
    (delete_all_memories (ρ := String) ⟨⟨fun _ => Except.ok "backend value"⟩⟩
        (some "u1") none none).1 =
      HResult.message "All relevant memories deleted" ∧
    (reset_memory (ρ := String) ⟨⟨fun _ => Except.ok "backend value"⟩⟩).1 =
      HResult.message "All memories reset" :=
  C7_fixed_confirmation_bodies ⟨⟨fun _ => Except.ok "backend value"⟩⟩ "id1"
    (some "u1") none none (by decide) "backend value" "backend value" "backend value"
    rfl rfl rfl

end Mem0Server
